import Mathlib

/-!
Verification of the LP/MIP model-building and reporting workflow of the
`bs10081/OR` teaching notebooks.

The two problem instances are transcribed from the notebooks under
`src/Chap3/`:
* `wyndor_glass_co_uses_gurobi_for_linear_programming_problems.ipynb`
  (maximize 3 x1 + 5 x2 subject to x1 <= 4, 2 x2 <= 12, 3 x1 + 2 x2 <= 18,
  x1, x2 >= 0), and
* `Radiation Therapy Treatment Optimization using Gurobi.ipynb`
  (minimize 0.4 x1 + 0.5 x2 subject to 0.3 x1 + 0.1 x2 <= 2.7,
  0.5 x1 + 0.5 x2 = 6, 0.6 x1 + 0.4 x2 >= 6, x1 <= 10 y1, x2 <= 10 y2,
  x1, x2 >= 0, y1, y2 binary).

Rational numbers stand in for the solver's real arithmetic; every number
appearing in the notebooks is an exact decimal, so nothing is lost.

The generic model-builder vocabulary (Variable, LinearExpression,
Constraint, Objective, Model, SolveResult) follows the repository's
design document; the builder operations `declare_variable`,
`set_objective` and `add_constraint`, and the solver contract, have no
implementation under `src/` (the notebooks call the external Gurobi
library directly), so they are modelled from the spec where noted.
-/

namespace OR

/-- Kind of a decision variable, after `vtype=GRB.CONTINUOUS` /
`vtype=GRB.BINARY` in the notebooks, plus the integer kind the design
document lists. -/
inductive VarKind where
  | continuous
  | binary
  | integer
deriving DecidableEq, Repr

/-- A decision variable: unique name, kind, and optional bounds, after
`model.addVar(name=..., vtype=..., lb=...)` in the notebooks. -/
structure Variable where
  name : String
  kind : VarKind
  lb : Option ℚ
  ub : Option ℚ
deriving DecidableEq, Repr

/-- A linear expression: named variables with coefficients plus a
constant term, after the overloaded-arithmetic expressions such as
`3 * x1 + 5 * x2` in the notebooks. -/
structure LinearExpression where
  terms : List (String × ℚ)
  constant : ℚ
deriving DecidableEq, Repr

/-- Relational operator of a constraint (`<=`, `==`, `>=` in the
notebooks). -/
inductive RelOp where
  | le
  | eq
  | ge
deriving DecidableEq, Repr

/-- A named linear constraint, after `model.addConstr(lhs op rhs, name=...)`. -/
structure Constraint where
  name : String
  lhs : LinearExpression
  op : RelOp
  rhs : ℚ
deriving DecidableEq, Repr

/-- Optimization direction (`GRB.MAXIMIZE` / `GRB.MINIMIZE`). -/
inductive Direction where
  | minimize
  | maximize
deriving DecidableEq, Repr

/-- The objective: a linear expression and a direction, after
`model.setObjective(expr, direction)`. -/
structure Objective where
  expr : LinearExpression
  dir : Direction
deriving DecidableEq, Repr

/-- A model: its variables, its objective (absent until set), and its
ordered constraints, after the notebooks' `gp.Model` accumulating state. -/
structure Model where
  vars : List Variable
  objective : Option Objective
  constraints : List Constraint
deriving DecidableEq, Repr

/-- Solver status, after `GRB.OPTIMAL` and the other terminal statuses
the design document lists. -/
inductive Status where
  | optimal
  | infeasible
  | unbounded
  | error
deriving DecidableEq, Repr

/-- A solve result: a status and, when optimal, each variable's assigned
value (`x1.x`, ... in the notebooks) and the objective value
(`model.objVal`). -/
structure SolveResult where
  status : Status
  values : List (String × ℚ)
  objectiveValue : ℚ
deriving DecidableEq, Repr

/-- The names of the model's declared variables. -/
def varNames (m : Model) : List String := m.vars.map Variable.name

/-- The names of the model's constraints. -/
def constraintNames (m : Model) : List String := m.constraints.map Constraint.name

/-- The variable names referenced by a linear expression. -/
def exprVars (e : LinearExpression) : List String := e.terms.map Prod.fst

/-- Value of a linear expression under an assignment of the variable
names. -/
def evalExpr (a : String → ℚ) (e : LinearExpression) : ℚ :=
  e.terms.foldl (fun acc t => acc + t.2 * a t.1) e.constant

/-- An assignment satisfies a constraint when the evaluated left-hand
side stands in the constraint's relation to the right-hand side. -/
def satisfiesConstraint (a : String → ℚ) (c : Constraint) : Prop :=
  match c.op with
  | RelOp.le => evalExpr a c.lhs ≤ c.rhs
  | RelOp.eq => evalExpr a c.lhs = c.rhs
  | RelOp.ge => evalExpr a c.lhs ≥ c.rhs

instance (a : String → ℚ) (c : Constraint) : Decidable (satisfiesConstraint a c) :=
  match c with
  | ⟨_, _, RelOp.le, _⟩ => inferInstanceAs (Decidable (_ ≤ _))
  | ⟨_, _, RelOp.eq, _⟩ => inferInstanceAs (Decidable (_ = _))
  | ⟨_, _, RelOp.ge, _⟩ => inferInstanceAs (Decidable (_ ≥ _))

/-- The domain condition a variable's kind imposes on the value assigned
to the name: none for a continuous variable, membership in \x7b0, 1\x7d
for a binary variable, integrality (denominator 1) for an integer
variable. -/
def kindOK (a : String → ℚ) : VarKind → String → Prop
  | VarKind.continuous, _ => True
  | VarKind.binary, n => a n = 0 ∨ a n = 1
  | VarKind.integer, n => (a n).den = 1

instance (a : String → ℚ) (k : VarKind) (n : String) : Decidable (kindOK a k n) :=
  match k with
  | VarKind.continuous => inferInstanceAs (Decidable True)
  | VarKind.binary => inferInstanceAs (Decidable (_ ∨ _))
  | VarKind.integer => inferInstanceAs (Decidable (_ = _))

/-- An assignment respects a variable's declared domain: its bounds when
given, and its kind's condition. -/
def satisfiesVariable (a : String → ℚ) (v : Variable) : Prop :=
  (∀ l ∈ v.lb, l ≤ a v.name) ∧ (∀ u ∈ v.ub, a v.name ≤ u) ∧
    kindOK a v.kind v.name

instance (a : String → ℚ) (v : Variable) : Decidable (satisfiesVariable a v) :=
  inferInstanceAs (Decidable (_ ∧ _ ∧ _))

/-- Feasibility: every variable's domain and every constraint is
satisfied. -/
def feasible (m : Model) (a : String → ℚ) : Prop :=
  (∀ v ∈ m.vars, satisfiesVariable a v) ∧
  (∀ c ∈ m.constraints, satisfiesConstraint a c)

instance (m : Model) (a : String → ℚ) : Decidable (feasible m a) :=
  inferInstanceAs (Decidable (_ ∧ _))

/-- Objective value of the model under an assignment (0 when no
objective has been set). -/
def objValue (m : Model) (a : String → ℚ) : ℚ :=
  match m.objective with
  | some o => evalExpr a o.expr
  | none => 0

/-- An assignment is optimal when it is feasible and no feasible
assignment does better in the objective's direction. -/
def isOptimal (m : Model) (a : String → ℚ) : Prop :=
  feasible m a ∧
  ∀ b : String → ℚ, feasible m b →
    match m.objective with
    | some o =>
        match o.dir with
        | Direction.maximize => objValue m b ≤ objValue m a
        | Direction.minimize => objValue m a ≤ objValue m b
    | none => True

/-- The Wyndor Glass model, transcribed line by line from
`wyndor_glass_co_uses_gurobi_for_linear_programming_problems.ipynb`:
two continuous variables with lower bound 0, objective maximize
3 x1 + 5 x2, constraints x1 <= 4, 2 x2 <= 12, 3 x1 + 2 x2 <= 18. -/
def wyndorModel : Model where
  vars :=
    [⟨"x1", VarKind.continuous, some 0, none⟩,
     ⟨"x2", VarKind.continuous, some 0, none⟩]
  objective := some ⟨⟨[("x1", 3), ("x2", 5)], 0⟩, Direction.maximize⟩
  constraints :=
    [⟨"Plant1_Capacity", ⟨[("x1", 1)], 0⟩, RelOp.le, 4⟩,
     ⟨"Plant2_Capacity", ⟨[("x2", 2)], 0⟩, RelOp.le, 12⟩,
     ⟨"Plant3_Capacity", ⟨[("x1", 3), ("x2", 2)], 0⟩, RelOp.le, 18⟩]

/-- The assignment the Wyndor notebook's output cell records:
x1 = 2.0, x2 = 6.0. -/
def wyndorAssign : String → ℚ :=
  fun s => if s = "x1" then 2 else if s = "x2" then 6 else 0

/-- The solve result the Wyndor notebook's output cell records: status
optimal, x1 = 2.0, x2 = 6.0, objective value 36.0. -/
def wyndorResult : SolveResult where
  status := Status.optimal
  values := [("x1", 2), ("x2", 6)]
  objectiveValue := 36

/-- The Radiation Therapy model, transcribed line by line from
`Radiation Therapy Treatment Optimization using Gurobi.ipynb`: two
continuous variables with lower bound 0, two binary variables, objective
minimize 0.4 x1 + 0.5 x2, constraints 0.3 x1 + 0.1 x2 <= 2.7,
0.5 x1 + 0.5 x2 = 6, 0.6 x1 + 0.4 x2 >= 6, and the Big-M linking
constraints x1 <= 10 y1 and x2 <= 10 y2 (M = 10), each brought to the
form lhs - M y <= 0. -/
def radiationModel : Model where
  vars :=
    [⟨"x1", VarKind.continuous, some 0, none⟩,
     ⟨"x2", VarKind.continuous, some 0, none⟩,
     ⟨"y1", VarKind.binary, some 0, some 1⟩,
     ⟨"y2", VarKind.binary, some 0, some 1⟩]
  objective := some ⟨⟨[("x1", 2/5), ("x2", 1/2)], 0⟩, Direction.minimize⟩
  constraints :=
    [⟨"Constraint1", ⟨[("x1", 3/10), ("x2", 1/10)], 0⟩, RelOp.le, 27/10⟩,
     ⟨"Constraint2", ⟨[("x1", 1/2), ("x2", 1/2)], 0⟩, RelOp.eq, 6⟩,
     ⟨"Constraint3", ⟨[("x1", 3/5), ("x2", 2/5)], 0⟩, RelOp.ge, 6⟩,
     ⟨"Linking_x1_y1", ⟨[("x1", 1), ("y1", -10)], 0⟩, RelOp.le, 0⟩,
     ⟨"Linking_x2_y2", ⟨[("x2", 1), ("y2", -10)], 0⟩, RelOp.le, 0⟩]

/-- The Radiation Therapy model with the two Big-M linking constraints
removed and the binary placement variables dropped: the pure continuous
relaxation over x1, x2 the Big-M validity question is about. -/
def radiationRelaxed : Model where
  vars :=
    [⟨"x1", VarKind.continuous, some 0, none⟩,
     ⟨"x2", VarKind.continuous, some 0, none⟩]
  objective := some ⟨⟨[("x1", 2/5), ("x2", 1/2)], 0⟩, Direction.minimize⟩
  constraints :=
    [⟨"Constraint1", ⟨[("x1", 3/10), ("x2", 1/10)], 0⟩, RelOp.le, 27/10⟩,
     ⟨"Constraint2", ⟨[("x1", 1/2), ("x2", 1/2)], 0⟩, RelOp.eq, 6⟩,
     ⟨"Constraint3", ⟨[("x1", 3/5), ("x2", 2/5)], 0⟩, RelOp.ge, 6⟩]

/-- The assignment the Radiation notebook's output cell records:
x1 = 7.5, x2 = 4.5, y1 = 1.0, y2 = 1.0. -/
def radiationAssign : String → ℚ :=
  fun s =>
    if s = "x1" then 15/2
    else if s = "x2" then 9/2
    else if s = "y1" then 1
    else if s = "y2" then 1
    else 0

/-- The solve result the Radiation notebook's output cell records:
status optimal, x1 = 7.5, x2 = 4.5, y1 = 1.0, y2 = 1.0, objective value
5.25. -/
def radiationResult : SolveResult where
  status := Status.optimal
  values := [("x1", 15/2), ("x2", 9/2), ("y1", 1), ("y2", 1)]
  objectiveValue := 21/4

/-- The builder-level errors of the design document's taxonomy. -/
inductive BuildError where
  | duplicateNameError
  | unknownVariableError
deriving DecidableEq, Repr

/-- Modelled from the spec: `declare_variable(name, kind, lower_bound,
upper_bound)` of the Model Builder, which has no implementation under
`src/` (the notebooks call the external library's `addVar`). Fails with
`DuplicateNameError` if the name already exists in the Model; for a
binary variable the bounds are forced to [0, 1] regardless of the
supplied bounds. -/
def declare_variable (m : Model) (name : String) (kind : VarKind)
    (lb ub : Option ℚ) : Except BuildError Model :=
  if name ∈ varNames m then Except.error BuildError.duplicateNameError
  else
    match kind with
    | VarKind.binary =>
        Except.ok { m with vars := m.vars ++ [⟨name, kind, some 0, some 1⟩] }
    | _ => Except.ok { m with vars := m.vars ++ [⟨name, kind, lb, ub⟩] }

/-- Modelled from the spec: `set_objective(expression, direction)` of
the Model Builder, which has no implementation under `src/` (the
notebooks call the external library's `setObjective`); replaces any
previously set objective. -/
def set_objective (m : Model) (e : LinearExpression) (d : Direction) : Model :=
  { m with objective := some ⟨e, d⟩ }

/-- Modelled from the spec: `add_constraint(expression, operator, rhs,
name)` of the Model Builder, which has no implementation under `src/`
(the notebooks call the external library's `addConstr`). Fails with
`UnknownVariableError` if the expression references a variable not
declared in the Model, and with `DuplicateNameError` on a constraint
name collision. -/
def add_constraint (m : Model) (e : LinearExpression) (op : RelOp)
    (rhs : ℚ) (name : String) : Except BuildError Model :=
  if ¬ ∀ n ∈ exprVars e, n ∈ varNames m then
    Except.error BuildError.unknownVariableError
  else if name ∈ constraintNames m then
    Except.error BuildError.duplicateNameError
  else
    Except.ok { m with constraints := m.constraints ++ [⟨name, e, op, rhs⟩] }

/-- The model state after a `declare_variable` call under the builder's
state-passing semantics: the new model on success, the unchanged model
on failure. -/
def runDeclare (m : Model) (name : String) (kind : VarKind)
    (lb ub : Option ℚ) : Model :=
  match declare_variable m name kind lb ub with
  | Except.ok m2 => m2
  | Except.error _ => m

/-- The model state after an `add_constraint` call under the builder's
state-passing semantics: the new model on success, the unchanged model
on failure. -/
def runAddConstraint (m : Model) (e : LinearExpression) (op : RelOp)
    (rhs : ℚ) (name : String) : Model :=
  match add_constraint m e op rhs name with
  | Except.ok m2 => m2
  | Except.error _ => m

/-- What the reporting step produces: either each variable's name with
its assigned value plus the objective value, or the no-solution
outcome. -/
inductive Report where
  | solution (values : List (String × ℚ)) (objectiveValue : ℚ)
  | noSolution
deriving DecidableEq, Repr

/-- The reporting step, transcribed from the notebooks' final cell:
`if model.status == GRB.OPTIMAL:` print each variable's value and
`model.objVal`, `else:` print "No optimal solution found.". A total
function: every status yields a Report, none throws. -/
def report (r : SolveResult) : Report :=
  match r.status with
  | Status.optimal => Report.solution r.values r.objectiveValue
  | _ => Report.noSolution

/-- Modelled from the spec: the contract of the external solver
collaborator (out of scope of `src/`, treated as a black box) for a
model it reports optimal — the status is optimal and the values list
assigns to each declared variable name the value of some optimal
assignment, whose objective value is the reported one. -/
def optimalResult (m : Model) (r : SolveResult) : Prop :=
  r.status = Status.optimal ∧
  ∃ a : String → ℚ, isOptimal m a ∧
    r.values = (varNames m).map (fun n => (n, a n)) ∧
    r.objectiveValue = objValue m a

/-- An assignment over x1, x2 extended by setting both binary placement
variables to 1, used to state that the Big-M linking constraints exclude
no feasible point of the continuous relaxation. -/
def withBinariesOne (a : String → ℚ) : String → ℚ :=
  fun n => if n = "y1" then 1 else if n = "y2" then 1 else a n

/-- A model with more than one optimal solution: a single continuous
variable x in [0, 1], a constant objective and no constraints, so every
feasible assignment is optimal. Witnesses that the solver contract does
not determine the returned result for an arbitrary Model. -/
def multiOptModel : Model where
  vars := [⟨"x", VarKind.continuous, some 0, some 1⟩]
  objective := some ⟨⟨[], 0⟩, Direction.maximize⟩
  constraints := []

/-- A contract-conforming result for `multiOptModel` reporting x = 0. -/
def multiOptResultA : SolveResult where
  status := Status.optimal
  values := [("x", 0)]
  objectiveValue := 0

/-- A second contract-conforming result for `multiOptModel`, reporting
x = 1. -/
def multiOptResultB : SolveResult where
  status := Status.optimal
  values := [("x", 1)]
  objectiveValue := 0

lemma wyndorAssign_x1 : wyndorAssign "x1" = 2 := rfl

lemma wyndorAssign_x2 : wyndorAssign "x2" = 6 := rfl

lemma wyndor_feasible_iff (a : String → ℚ) :
    feasible wyndorModel a ↔
      0 ≤ a "x1" ∧ 0 ≤ a "x2" ∧ a "x1" ≤ 4 ∧ 2 * a "x2" ≤ 12 ∧
        3 * a "x1" + 2 * a "x2" ≤ 18 := by
  simp [feasible, wyndorModel, satisfiesVariable, satisfiesConstraint, kindOK, evalExpr]
  tauto

lemma wyndor_objValue_eq (a : String → ℚ) :
    objValue wyndorModel a = 3 * a "x1" + 5 * a "x2" := by
  simp [objValue, wyndorModel, evalExpr]

lemma wyndor_feasible : feasible wyndorModel wyndorAssign := by
  rw [wyndor_feasible_iff, wyndorAssign_x1, wyndorAssign_x2]
  norm_num

lemma wyndor_objValue : objValue wyndorModel wyndorAssign = 36 := by
  rw [wyndor_objValue_eq, wyndorAssign_x1, wyndorAssign_x2]
  norm_num

lemma wyndor_max (a : String → ℚ) (h : feasible wyndorModel a) :
    objValue wyndorModel a ≤ 36 := by
  rw [wyndor_feasible_iff] at h
  obtain ⟨h1, h2, h3, h4, h5⟩ := h
  rw [wyndor_objValue_eq]
  linarith

lemma wyndor_isOptimal : isOptimal wyndorModel wyndorAssign := by
  refine ⟨wyndor_feasible, fun b hb => ?_⟩
  show objValue wyndorModel b ≤ objValue wyndorModel wyndorAssign
  rw [wyndor_objValue]
  exact wyndor_max b hb

lemma wyndor_optimal_values (a : String → ℚ) (h : isOptimal wyndorModel a) :
    a "x1" = 2 ∧ a "x2" = 6 := by
  have hmax : objValue wyndorModel wyndorAssign ≤ objValue wyndorModel a :=
    h.2 wyndorAssign wyndor_feasible
  rw [wyndor_objValue] at hmax
  have hub := wyndor_max a h.1
  have hfe := (wyndor_feasible_iff a).mp h.1
  obtain ⟨h1, h2, h3, h4, h5⟩ := hfe
  rw [wyndor_objValue_eq] at hmax hub
  constructor <;> linarith

lemma radiationAssign_x1 : radiationAssign "x1" = 15/2 := rfl

lemma radiationAssign_x2 : radiationAssign "x2" = 9/2 := rfl

lemma radiationAssign_y1 : radiationAssign "y1" = 1 := rfl

lemma radiationAssign_y2 : radiationAssign "y2" = 1 := rfl

lemma radiation_feasible_iff (a : String → ℚ) :
    feasible radiationModel a ↔
      0 ≤ a "x1" ∧ 0 ≤ a "x2" ∧
        (0 ≤ a "y1" ∧ a "y1" ≤ 1 ∧ (a "y1" = 0 ∨ a "y1" = 1)) ∧
        (0 ≤ a "y2" ∧ a "y2" ≤ 1 ∧ (a "y2" = 0 ∨ a "y2" = 1)) ∧
        3/10 * a "x1" + 1/10 * a "x2" ≤ 27/10 ∧
        1/2 * a "x1" + 1/2 * a "x2" = 6 ∧
        6 ≤ 3/5 * a "x1" + 2/5 * a "x2" ∧
        a "x1" ≤ 10 * a "y1" ∧ a "x2" ≤ 10 * a "y2" := by
  simp [feasible, radiationModel, satisfiesVariable, satisfiesConstraint, kindOK, evalExpr]
  tauto

lemma radiation_objValue_eq (a : String → ℚ) :
    objValue radiationModel a = 2/5 * a "x1" + 1/2 * a "x2" := by
  simp [objValue, radiationModel, evalExpr]

lemma radiation_feasible : feasible radiationModel radiationAssign := by
  rw [radiation_feasible_iff, radiationAssign_x1, radiationAssign_x2,
    radiationAssign_y1, radiationAssign_y2]
  norm_num

lemma radiation_objValue : objValue radiationModel radiationAssign = 21/4 := by
  rw [radiation_objValue_eq, radiationAssign_x1, radiationAssign_x2]
  norm_num

lemma radiation_x1_range (a : String → ℚ) (h : feasible radiationModel a) :
    6 ≤ a "x1" ∧ a "x1" ≤ 15/2 ∧ a "x2" = 12 - a "x1" := by
  rw [radiation_feasible_iff] at h
  obtain ⟨h1, h2, -, -, hc1, hc2, hc3, -, -⟩ := h
  refine ⟨by linarith, by linarith, by linarith⟩

lemma radiation_forces_y (a : String → ℚ) (h : feasible radiationModel a) :
    a "y1" = 1 ∧ a "y2" = 1 := by
  obtain ⟨hx1, hx2, hx12⟩ := radiation_x1_range a h
  rw [radiation_feasible_iff] at h
  obtain ⟨h1, h2, ⟨-, -, hy1⟩, ⟨-, -, hy2⟩, -, -, -, hl1, hl2⟩ := h
  constructor
  · rcases hy1 with h0 | h1' <;> [skip; exact h1']
    rw [h0] at hl1
    linarith
  · rcases hy2 with h0 | h1' <;> [skip; exact h1']
    rw [h0] at hl2
    linarith

lemma radiation_min (a : String → ℚ) (h : feasible radiationModel a) :
    21/4 ≤ objValue radiationModel a := by
  obtain ⟨hx1, hx2, hx12⟩ := radiation_x1_range a h
  rw [radiation_objValue_eq, hx12]
  linarith

lemma radiation_isOptimal : isOptimal radiationModel radiationAssign := by
  refine ⟨radiation_feasible, fun b hb => ?_⟩
  show objValue radiationModel radiationAssign ≤ objValue radiationModel b
  rw [radiation_objValue]
  exact radiation_min b hb

lemma radiation_optimal_values (a : String → ℚ) (h : isOptimal radiationModel a) :
    a "x1" = 15/2 ∧ a "x2" = 9/2 ∧ a "y1" = 1 ∧ a "y2" = 1 := by
  have hmin : objValue radiationModel a ≤ objValue radiationModel radiationAssign :=
    h.2 radiationAssign radiation_feasible
  rw [radiation_objValue] at hmin
  have hlb := radiation_min a h.1
  obtain ⟨hx1, hx2, hx12⟩ := radiation_x1_range a h.1
  obtain ⟨hy1, hy2⟩ := radiation_forces_y a h.1
  rw [radiation_objValue_eq, hx12] at hmin hlb
  refine ⟨by linarith, by rw [hx12]; linarith, hy1, hy2⟩

lemma radiationRelaxed_feasible_iff (a : String → ℚ) :
    feasible radiationRelaxed a ↔
      0 ≤ a "x1" ∧ 0 ≤ a "x2" ∧
        3/10 * a "x1" + 1/10 * a "x2" ≤ 27/10 ∧
        1/2 * a "x1" + 1/2 * a "x2" = 6 ∧
        6 ≤ 3/5 * a "x1" + 2/5 * a "x2" := by
  simp [feasible, radiationRelaxed, satisfiesVariable, satisfiesConstraint, kindOK, evalExpr]
  tauto

lemma radiationRelaxed_feasible : feasible radiationRelaxed radiationAssign := by
  rw [radiationRelaxed_feasible_iff, radiationAssign_x1, radiationAssign_x2]
  norm_num

lemma withBinariesOne_x1 (a : String → ℚ) : withBinariesOne a "x1" = a "x1" := rfl

lemma withBinariesOne_x2 (a : String → ℚ) : withBinariesOne a "x2" = a "x2" := rfl

lemma withBinariesOne_y1 (a : String → ℚ) : withBinariesOne a "y1" = 1 := rfl

lemma withBinariesOne_y2 (a : String → ℚ) : withBinariesOne a "y2" = 1 := rfl

lemma relaxed_bounds (a : String → ℚ) (h : feasible radiationRelaxed a) :
    a "x1" ≤ 10 ∧ a "x2" ≤ 10 := by
  rw [radiationRelaxed_feasible_iff] at h
  obtain ⟨h1, h2, hc1, hc2, hc3⟩ := h
  constructor <;> linarith

lemma relaxed_extends (a : String → ℚ) (h : feasible radiationRelaxed a) :
    feasible radiationModel (withBinariesOne a) := by
  have hb := relaxed_bounds a h
  rw [radiationRelaxed_feasible_iff] at h
  rw [radiation_feasible_iff, withBinariesOne_x1, withBinariesOne_x2,
    withBinariesOne_y1, withBinariesOne_y2]
  obtain ⟨h1, h2, hc1, hc2, hc3⟩ := h
  norm_num
  exact ⟨h1, h2, hc1, hc2, hc3, by linarith [hb.1], by linarith [hb.2]⟩

lemma wyndorResult_values :
    (varNames wyndorModel).map (fun n => (n, wyndorAssign n)) = wyndorResult.values := by
  simp [varNames, wyndorModel, wyndorResult, wyndorAssign_x1, wyndorAssign_x2]

lemma wyndorResult_optimal : optimalResult wyndorModel wyndorResult :=
  ⟨rfl, wyndorAssign, wyndor_isOptimal, wyndorResult_values.symm, wyndor_objValue.symm⟩

lemma radiationResult_values :
    (varNames radiationModel).map (fun n => (n, radiationAssign n)) = radiationResult.values := by
  simp [varNames, radiationModel, radiationResult, radiationAssign_x1, radiationAssign_x2,
    radiationAssign_y1, radiationAssign_y2]

lemma radiationResult_optimal : optimalResult radiationModel radiationResult :=
  ⟨rfl, radiationAssign, radiation_isOptimal, radiationResult_values.symm, radiation_objValue.symm⟩

lemma wyndorResult_unique (r : SolveResult) (h : optimalResult wyndorModel r) :
    r = wyndorResult := by
  obtain ⟨hs, a, hopt, hvals, hobj⟩ := h
  obtain ⟨e1, e2⟩ := wyndor_optimal_values a hopt
  obtain ⟨s, v, o⟩ := r
  simp only at hs hvals hobj
  subst hs hvals hobj
  have ho : objValue wyndorModel a = 36 := by
    rw [wyndor_objValue_eq, e1, e2]
    norm_num
  rw [ho, show varNames wyndorModel = ["x1", "x2"] from rfl]
  simp [wyndorResult, e1, e2]

lemma radiationResult_unique (r : SolveResult) (h : optimalResult radiationModel r) :
    r = radiationResult := by
  obtain ⟨hs, a, hopt, hvals, hobj⟩ := h
  obtain ⟨e1, e2, e3, e4⟩ := radiation_optimal_values a hopt
  obtain ⟨s, v, o⟩ := r
  simp only at hs hvals hobj
  subst hs hvals hobj
  have ho : objValue radiationModel a = 21/4 := by
    rw [radiation_objValue_eq, e1, e2]
    norm_num
  rw [ho, show varNames radiationModel = ["x1", "x2", "y1", "y2"] from rfl]
  simp [radiationResult, e1, e2, e3, e4]

lemma wyndorModel_built :
    (do
      let m0 : Model := ⟨[], none, []⟩
      let m1 ← declare_variable m0 "x1" VarKind.continuous (some 0) none
      let m2 ← declare_variable m1 "x2" VarKind.continuous (some 0) none
      let m3 := set_objective m2 ⟨[("x1", 3), ("x2", 5)], 0⟩ Direction.maximize
      let m4 ← add_constraint m3 ⟨[("x1", 1)], 0⟩ RelOp.le 4 "Plant1_Capacity"
      let m5 ← add_constraint m4 ⟨[("x2", 2)], 0⟩ RelOp.le 12 "Plant2_Capacity"
      add_constraint m5 ⟨[("x1", 3), ("x2", 2)], 0⟩ RelOp.le 18 "Plant3_Capacity") =
      Except.ok wyndorModel := by
  rfl

lemma radiationModel_built :
    (do
      let m0 : Model := ⟨[], none, []⟩
      let m1 ← declare_variable m0 "x1" VarKind.continuous (some 0) none
      let m2 ← declare_variable m1 "x2" VarKind.continuous (some 0) none
      let m3 ← declare_variable m2 "y1" VarKind.binary none none
      let m4 ← declare_variable m3 "y2" VarKind.binary none none
      let m5 := set_objective m4 ⟨[("x1", 2/5), ("x2", 1/2)], 0⟩ Direction.minimize
      let m6 ← add_constraint m5 ⟨[("x1", 3/10), ("x2", 1/10)], 0⟩ RelOp.le (27/10) "Constraint1"
      let m7 ← add_constraint m6 ⟨[("x1", 1/2), ("x2", 1/2)], 0⟩ RelOp.eq 6 "Constraint2"
      let m8 ← add_constraint m7 ⟨[("x1", 3/5), ("x2", 2/5)], 0⟩ RelOp.ge 6 "Constraint3"
      let m9 ← add_constraint m8 ⟨[("x1", 1), ("y1", -10)], 0⟩ RelOp.le 0 "Linking_x1_y1"
      add_constraint m9 ⟨[("x2", 1), ("y2", -10)], 0⟩ RelOp.le 0 "Linking_x2_y2") =
      Except.ok radiationModel := by
  rfl



/-- C1: For the Wyndor Glass problem instance as built in the notebook
(maximize 3 x1 + 5 x2 subject to x1 <= 4, 2 x2 <= 12, 3 x1 + 2 x2 <= 18,
x1, x2 >= 0), solving returns status optimal with assigned values
x1 = 2.0 and x2 = 6.0 and objective value 36.0: the result the notebook
records carries exactly these values and satisfies the solver contract
for the model — its assignment is feasible and maximizes the
objective. -/
theorem wyndor_end_to_end :
    wyndorResult.status = Status.optimal ∧
    wyndorResult.values = [("x1", 2), ("x2", 6)] ∧
    wyndorResult.objectiveValue = 36 ∧
    optimalResult wyndorModel wyndorResult :=
  ⟨rfl, rfl, rfl, wyndorResult_optimal⟩

/-- C2: For the Radiation Therapy problem instance as built in the
notebook, solving returns status optimal with x1 = 7.5, x2 = 4.5,
y1 = 1.0, y2 = 1.0 and objective value 5.25: the result the notebook
records carries exactly these values and satisfies the solver contract
for the model — its assignment is feasible and minimizes the
objective. -/
theorem radiation_end_to_end :
    radiationResult.status = Status.optimal ∧
    radiationResult.values = [("x1", 15/2), ("x2", 9/2), ("y1", 1), ("y2", 1)] ∧
    radiationResult.objectiveValue = 21/4 ∧
    optimalResult radiationModel radiationResult :=
  ⟨rfl, rfl, rfl, radiationResult_optimal⟩

/-- C3: The hard-coded Big-M constant M = 10 of the Radiation Therapy
model is valid: every assignment feasible for the problem with the two
linking constraints removed has x1 <= 10 and x2 <= 10, and extending it
with y1 = y2 = 1 is feasible for the full model, so the constraints
x1 <= 10 y1 and x2 <= 10 y2 wrongly exclude no feasible solution. -/
theorem bigM_ten_valid (a : String → ℚ) (h : feasible radiationRelaxed a) :
    a "x1" ≤ 10 ∧ a "x2" ≤ 10 ∧
    feasible radiationModel (withBinariesOne a) :=
  ⟨(relaxed_bounds a h).1, (relaxed_bounds a h).2, relaxed_extends a h⟩

/-- Witness for C3 at the notebook's reported point x1 = 7.5,
x2 = 4.5. -/
theorem bigM_ten_valid_witness :
    feasible radiationRelaxed radiationAssign ∧
      (radiationAssign "x1" ≤ 10 ∧ radiationAssign "x2" ≤ 10 ∧
        feasible radiationModel (withBinariesOne radiationAssign)) :=
  ⟨radiationRelaxed_feasible, bigM_ten_valid radiationAssign radiationRelaxed_feasible⟩

/-- C4: For every Model, `declare_variable` with a name already present
among the Model's variables fails with `DuplicateNameError`, and the
model state after the failed call is exactly the model state before
it. -/
theorem declare_variable_duplicate (m : Model) (name : String) (kind : VarKind)
    (lb ub : Option ℚ) (h : name ∈ varNames m) :
    declare_variable m name kind lb ub = Except.error BuildError.duplicateNameError ∧
    runDeclare m name kind lb ub = m := by
  have he : declare_variable m name kind lb ub =
      Except.error BuildError.duplicateNameError := by
    unfold declare_variable
    rw [if_pos h]
  refine ⟨he, ?_⟩
  unfold runDeclare
  rw [he]

/-- Witness for C4: re-declaring "x1" on the Wyndor model fails and
leaves the model unchanged. -/
theorem declare_variable_duplicate_witness :
    declare_variable wyndorModel "x1" VarKind.continuous (some 0) none =
      Except.error BuildError.duplicateNameError ∧
    runDeclare wyndorModel "x1" VarKind.continuous (some 0) none = wyndorModel :=
  declare_variable_duplicate wyndorModel "x1" VarKind.continuous (some 0) none
    (by decide)

/-- C5: For every Model, `add_constraint` with an expression referencing
a variable not declared in the Model fails with `UnknownVariableError`
and the model state — in particular its constraint list — is unchanged
(atomicity); conversely every successfully added constraint references
only variables already declared in the Model. -/
theorem add_constraint_unknown_variable :
    (∀ (m : Model) (e : LinearExpression) (op : RelOp) (rhs : ℚ) (cname : String),
      (∃ n ∈ exprVars e, n ∉ varNames m) →
        add_constraint m e op rhs cname = Except.error BuildError.unknownVariableError ∧
        runAddConstraint m e op rhs cname = m) ∧
    (∀ (m m2 : Model) (e : LinearExpression) (op : RelOp) (rhs : ℚ) (cname : String),
      add_constraint m e op rhs cname = Except.ok m2 →
      ∀ n ∈ exprVars e, n ∈ varNames m) := by
  constructor
  · intro m e op rhs cname h
    have hng : ¬ ∀ n ∈ exprVars e, n ∈ varNames m := by
      obtain ⟨n, hn, hnm⟩ := h
      exact fun hall => hnm (hall n hn)
    have he : add_constraint m e op rhs cname =
        Except.error BuildError.unknownVariableError := by
      unfold add_constraint
      rw [if_pos hng]
    refine ⟨he, ?_⟩
    unfold runAddConstraint
    rw [he]
  · intro m m2 e op rhs cname hok n hn
    by_contra hnm
    have hng : ¬ ∀ x ∈ exprVars e, x ∈ varNames m := fun hall => hnm (hall n hn)
    unfold add_constraint at hok
    rw [if_pos hng] at hok
    cases hok

/-- Witness for C5: adding a constraint over the undeclared variable "z"
to the Wyndor model fails and leaves the model unchanged. -/
theorem add_constraint_unknown_variable_witness :
    add_constraint wyndorModel ⟨[("z", 1)], 0⟩ RelOp.le 0 "Extra" =
      Except.error BuildError.unknownVariableError ∧
    runAddConstraint wyndorModel ⟨[("z", 1)], 0⟩ RelOp.le 0 "Extra" = wyndorModel :=
  add_constraint_unknown_variable.1 wyndorModel ⟨[("z", 1)], 0⟩ RelOp.le 0 "Extra"
    ⟨"z", by decide, by decide⟩

/-- C6: `report` produces each variable's name with its assigned value
plus the objective value exactly when the status is optimal; for every
non-optimal status it produces the no-solution outcome carrying no
variable value. It is a total function, so no status raises an
exception. -/
theorem report_optimal_iff (r : SolveResult) :
    (r.status = Status.optimal →
      report r = Report.solution r.values r.objectiveValue) ∧
    (r.status ≠ Status.optimal → report r = Report.noSolution) := by
  obtain ⟨s, v, o⟩ := r
  cases s <;> simp [report]

/-- Witness for C6 at the Wyndor notebook's optimal result. -/
theorem report_optimal_iff_witness :
    report wyndorResult = Report.solution wyndorResult.values wyndorResult.objectiveValue :=
  (report_optimal_iff wyndorResult).1 rfl

/-- C7: In every solve result satisfying the solver contract, the value
reported for a binary variable lies in \x7b0, 1\x7d and the value
reported for any variable satisfies its declared lower and upper
bounds. -/
theorem optimal_result_respects_domains (m : Model) (r : SolveResult)
    (hr : optimalResult m r) :
    ∀ v ∈ m.vars, ∀ q : ℚ, (v.name, q) ∈ r.values →
      (v.kind = VarKind.binary → q = 0 ∨ q = 1) ∧
      (∀ l ∈ v.lb, l ≤ q) ∧ (∀ u ∈ v.ub, q ≤ u) := by
  obtain ⟨hs, a, hopt, hvals, hobj⟩ := hr
  intro v hv q hq
  rw [hvals] at hq
  simp only [List.mem_map] at hq
  obtain ⟨n, hn, heq⟩ := hq
  injection heq with h1 h2
  subst h1
  subst h2
  obtain ⟨hl, hu, hk⟩ := hopt.1.1 v hv
  refine ⟨fun hbin => ?_, hl, hu⟩
  rw [hbin] at hk
  exact hk

/-- Witness for C7: in the Radiation notebook's result, the binary
variable y1 reports a value in \x7b0, 1\x7d. -/
theorem optimal_result_respects_domains_witness :
    optimalResult radiationModel radiationResult ∧ ((1 : ℚ) = 0 ∨ (1 : ℚ) = 1) :=
  ⟨radiationResult_optimal,
    (optimal_result_respects_domains radiationModel radiationResult radiationResult_optimal
      ⟨"y1", VarKind.binary, some 0, some 1⟩
      (show _ ∈ radiationModel.vars from
        List.mem_cons_of_mem _ (List.mem_cons_of_mem _ (List.mem_cons_self _ _)))
      1
      (show ("y1", (1 : ℚ)) ∈ radiationResult.values from
        List.mem_cons_of_mem _ (List.mem_cons_of_mem _ (List.mem_cons_self _ _)))).1 rfl⟩

lemma multiOpt_objValue (a : String → ℚ) : objValue multiOptModel a = 0 := rfl

lemma multiOpt_feasible_zero : feasible multiOptModel (fun _ => 0) := by
  refine ⟨?_, ?_⟩ <;> simp [multiOptModel, satisfiesVariable, kindOK]

lemma multiOpt_feasible_one : feasible multiOptModel (fun _ => 1) := by
  refine ⟨?_, ?_⟩ <;> simp [multiOptModel, satisfiesVariable, kindOK]

lemma multiOpt_isOptimal_zero : isOptimal multiOptModel (fun _ => 0) := by
  refine ⟨multiOpt_feasible_zero, fun b hb => ?_⟩
  show objValue multiOptModel b ≤ objValue multiOptModel (fun _ => 0)
  rw [multiOpt_objValue, multiOpt_objValue]

lemma multiOpt_isOptimal_one : isOptimal multiOptModel (fun _ => 1) := by
  refine ⟨multiOpt_feasible_one, fun b hb => ?_⟩
  show objValue multiOptModel b ≤ objValue multiOptModel (fun _ => 1)
  rw [multiOpt_objValue, multiOpt_objValue]

lemma multiOptResultA_optimal : optimalResult multiOptModel multiOptResultA :=
  ⟨rfl, fun _ => 0, multiOpt_isOptimal_zero, rfl, rfl⟩

lemma multiOptResultB_optimal : optimalResult multiOptModel multiOptResultB :=
  ⟨rfl, fun _ => 1, multiOpt_isOptimal_one, rfl, rfl⟩

lemma multiOptResults_ne : multiOptResultA ≠ multiOptResultB := by
  simp [multiOptResultA, multiOptResultB]

/-- C8 counterexample: under the solver contract, determinism does not
hold for every Model. The model `multiOptModel` (one variable x in
[0, 1], constant objective) admits two distinct contract-conforming
results — one reporting x = 0, one reporting x = 1 — so the universal
statement "any two contract-conforming results of the same Model are
identical" is false. -/
theorem solve_deterministic_counterexample :
    (optimalResult multiOptModel multiOptResultA ∧
     optimalResult multiOptModel multiOptResultB ∧
     multiOptResultA ≠ multiOptResultB) ∧
    ¬ (∀ (m : Model) (r r' : SolveResult),
        optimalResult m r → optimalResult m r' → r = r') := by
  refine ⟨⟨multiOptResultA_optimal, multiOptResultB_optimal, multiOptResults_ne⟩, fun h => ?_⟩
  exact multiOptResults_ne
    (h multiOptModel multiOptResultA multiOptResultB
      multiOptResultA_optimal multiOptResultB_optimal)

/-- C8 (amended): For each of the two Models this repository builds,
solving the unmodified Model twice yields identical results — any two
solve results satisfying the solver contract are equal, because each
model's optimal assignment, hence its contract-conforming result, is
unique. For a general Model with several optimal solutions the contract
leaves the result underdetermined (see the counterexample), so the
unrestricted form of the claim does not hold. -/
theorem solve_deterministic_for_repo_models (r r' : SolveResult) :
    (optimalResult wyndorModel r → optimalResult wyndorModel r' → r = r') ∧
    (optimalResult radiationModel r → optimalResult radiationModel r' → r = r') := by
  constructor
  · intro h h'
    rw [wyndorResult_unique r h, wyndorResult_unique r' h']
  · intro h h'
    rw [radiationResult_unique r h, radiationResult_unique r' h']

/-- Witness for C8 at the Wyndor notebook's recorded result. -/
theorem solve_deterministic_for_repo_models_witness :
    optimalResult wyndorModel wyndorResult ∧ wyndorResult = wyndorResult :=
  ⟨wyndorResult_optimal,
    (solve_deterministic_for_repo_models wyndorResult wyndorResult).1
      wyndorResult_optimal wyndorResult_optimal⟩

/-- C9: In every feasible solution of the Radiation Therapy model as
built in the notebook, both binary placement variables are forced to 1
(the constraints imply 6 <= x1 <= 7.5 and x2 = 12 - x1 > 0, so neither
linking constraint can hold with its binary variable at 0). -/
theorem radiation_forces_binaries_one (a : String → ℚ)
    (h : feasible radiationModel a) :
    a "y1" = 1 ∧ a "y2" = 1 :=
  radiation_forces_y a h

/-- Witness for C9 at the notebook's reported feasible point. -/
theorem radiation_forces_binaries_one_witness :
    feasible radiationModel radiationAssign ∧
      (radiationAssign "y1" = 1 ∧ radiationAssign "y2" = 1) :=
  ⟨radiation_feasible, radiation_forces_binaries_one radiationAssign radiation_feasible⟩

/-- C10: Each problem instance has a unique optimal solution: every
feasible point of the Wyndor Glass model with objective value 36 is
(x1, x2) = (2, 6), and every feasible point of the Radiation Therapy
model with objective value 5.25 is (x1, x2, y1, y2) = (7.5, 4.5, 1, 1);
the reported values are uniquely determined by the model. -/
theorem unique_optimal_solutions :
    (∀ a : String → ℚ, feasible wyndorModel a → objValue wyndorModel a = 36 →
      a "x1" = 2 ∧ a "x2" = 6) ∧
    (∀ a : String → ℚ, feasible radiationModel a → objValue radiationModel a = 21/4 →
      a "x1" = 15/2 ∧ a "x2" = 9/2 ∧ a "y1" = 1 ∧ a "y2" = 1) := by
  constructor
  · intro a hf ho
    rw [wyndor_feasible_iff] at hf
    rw [wyndor_objValue_eq] at ho
    obtain ⟨h1, h2, h3, h4, h5⟩ := hf
    constructor <;> linarith
  · intro a hf ho
    obtain ⟨hx1, hx2, hx12⟩ := radiation_x1_range a hf
    obtain ⟨hy1, hy2⟩ := radiation_forces_y a hf
    rw [radiation_objValue_eq, hx12] at ho
    refine ⟨by linarith, by rw [hx12]; linarith, hy1, hy2⟩

/-- Witness for C10 at the Wyndor notebook's reported point. -/
theorem unique_optimal_solutions_witness :
    feasible wyndorModel wyndorAssign ∧ objValue wyndorModel wyndorAssign = 36 ∧
      (wyndorAssign "x1" = 2 ∧ wyndorAssign "x2" = 6) :=
  ⟨wyndor_feasible, wyndor_objValue,
    unique_optimal_solutions.1 wyndorAssign wyndor_feasible wyndor_objValue⟩

end OR
